import Mathlib

/-!
Verification development for the P.H.A.N.I.X FORENSIC-QR-ARCHITECT core
(`src/ForensicQRGenerator.jsx`): the canonicalizer, SHA-256 digest engine,
package formatter, package parser, verification/classification engine and
the still-image decode pipeline.  JavaScript strings are embedded as lists
of characters; JavaScript runtime exceptions (`ReferenceError` for an
undefined identifier, `TypeError` for a method call on `undefined`) are
embedded as `Except` errors.
-/

set_option maxRecDepth 100000

deriving instance DecidableEq for Except

namespace Phanix

/-- JavaScript strings, embedded as their character sequences. -/
abbrev Str := List Char

/-- Coerce a Lean string literal to the embedding type. -/
def str (s : String) : Str := s.data

/-- The whitespace class used by JavaScript `String.prototype.trim`
(ASCII whitespace plus NBSP and BOM; exotic Unicode space separators are
not produced by any string in this code base). -/
def isJsWhitespace (c : Char) : Bool :=
  c = ' ' || c = '\t' || c = '\n' || c = '\r' ||
  c = '\x0b' || c = '\x0c' || c = ' ' || c = '﻿'

/-- JavaScript `s.trim()`. -/
def jsTrim (s : Str) : Str :=
  ((s.dropWhile isJsWhitespace).reverse.dropWhile isJsWhitespace).reverse

/-- JavaScript `s.toUpperCase()` (ASCII case mapping; the source only
upper-cases section titles, which are operator-entered text). -/
def jsUpper (s : Str) : Str := s.map Char.toUpper

/-- JavaScript `hay.includes(needle)`: `needle` occurs contiguously in
`hay` (checked at every suffix of `hay`). -/
def includes (hay needle : Str) : Bool :=
  match hay with
  | [] => needle.isEmpty
  | _ :: t => needle.isPrefixOf hay || includes t needle

/-- JavaScript `s.startsWith(p)`. -/
def jsStartsWith (p s : Str) : Bool := p.isPrefixOf s

/-- JavaScript `s.split(sep)` for a single-character separator
(`"".split(c) = [""]`, and a trailing separator yields a trailing `""`). -/
def jsSplit (sep : Char) : Str → List Str
  | [] => [[]]
  | c :: cs =>
    if c = sep then [] :: jsSplit sep cs
    else
      match jsSplit sep cs with
      | [] => [[c]]
      | s :: rest => (c :: s) :: rest

/-- Split off the text before the first occurrence of `sep` and the text
after it, when `sep` occurs. -/
def breakAtSep (sep : Str) : Str → Option (Str × Str)
  | [] => none
  | c :: cs =>
    if sep.isPrefixOf (c :: cs) then some ([], (c :: cs).drop sep.length)
    else
      match breakAtSep sep cs with
      | none => none
      | some (pre, post) => some (c :: pre, post)

/-- Fuel-driven worker for `jsSplitSep`; the fuel is an upper bound on the
number of separator occurrences, so `length + 1` is always enough. -/
def jsSplitSepGo (sep : Str) : Nat → Str → List Str
  | 0, rest => [rest]
  | fuel + 1, rest =>
    match breakAtSep sep rest with
    | none => [rest]
    | some (pre, post) => pre :: jsSplitSepGo sep fuel post

/-- JavaScript `s.split(sep)` for a (non-empty) string separator; the
source only uses it with `"::"`.  (JavaScript's empty-separator behaviour,
splitting into single characters, is also mirrored.) -/
def jsSplitSep (sep : Str) (s : Str) : List Str :=
  if sep.isEmpty then s.map (fun c => [c])
  else jsSplitSepGo sep s.length s

/-- JavaScript `parts.join("\n")`. -/
def joinLines : List Str → Str
  | [] => []
  | [l] => l
  | l :: ls => l ++ '\n' :: joinLines ls

example : jsSplit ':' (str "a:b:c") = [str "a", str "b", str "c"] := by decide
example : jsSplit ':' (str "abc") = [str "abc"] := by decide
example : jsSplit ':' [] = [[]] := by decide
example : jsSplitSep (str "::") (str "#1 :: T") = [str "#1 ", str " T"] := by decide
example : jsTrim (str "  a b \n") = str "a b" := by decide
example : includes (str "xFORENSIC-QR-ARCHITECTy") (str "FORENSIC-QR-ARCHITECT") = true := by
  decide
example : joinLines [str "a", str "", str "b"] = str "a\n\nb" := by decide

/-!
Digest engine: `CryptoJS.SHA256(string).toString()` parses the string as
UTF-8 bytes, hashes them with SHA-256 and renders the digest as 64
lowercase hex characters.
-/

/-- UTF-8 encoding of one code point. -/
def utf8EncodeChar (c : Char) : List Nat :=
  let n := c.toNat
  if n < 0x80 then [n]
  else if n < 0x800 then [0xc0 + n / 0x40, 0x80 + n % 0x40]
  else if n < 0x10000 then
    [0xe0 + n / 0x1000, 0x80 + (n / 0x40) % 0x40, 0x80 + n % 0x40]
  else
    [0xf0 + n / 0x40000, 0x80 + (n / 0x1000) % 0x40,
     0x80 + (n / 0x40) % 0x40, 0x80 + n % 0x40]

/-- UTF-8 bytes of a string. -/
def utf8Bytes (s : Str) : List Nat := (s.map utf8EncodeChar).flatten

/-- Reduce modulo 2^32 (all SHA-256 words are 32-bit). -/
def mod32 (n : Nat) : Nat := n % 4294967296

/-- 32-bit right rotation. -/
def rotr (n x : Nat) : Nat := mod32 ((x >>> n) ||| (x <<< (32 - n)))

/-- 32-bit bitwise complement. -/
def not32 (x : Nat) : Nat := 4294967295 ^^^ x

def shaCh (x y z : Nat) : Nat := (x &&& y) ^^^ (not32 x &&& z)

def shaMaj (x y z : Nat) : Nat := (x &&& y) ^^^ (x &&& z) ^^^ (y &&& z)

def bigSigma0 (x : Nat) : Nat := rotr 2 x ^^^ rotr 13 x ^^^ rotr 22 x

def bigSigma1 (x : Nat) : Nat := rotr 6 x ^^^ rotr 11 x ^^^ rotr 25 x

def smallSigma0 (x : Nat) : Nat := rotr 7 x ^^^ rotr 18 x ^^^ (x >>> 3)

def smallSigma1 (x : Nat) : Nat := rotr 17 x ^^^ rotr 19 x ^^^ (x >>> 10)

/-- The 64 SHA-256 round constants (FIPS 180-4, written in decimal). -/
def shaK : List Nat :=
  [1116352408, 1899447441, 3049323471, 3921009573,
   961987163, 1508970993, 2453635748, 2870763221,
   3624381080, 310598401, 607225278, 1426881987,
   1925078388, 2162078206, 2614888103, 3248222580,
   3835390401, 4022224774, 264347078, 604807628,
   770255983, 1249150122, 1555081692, 1996064986,
   2554220882, 2821834349, 2952996808, 3210313671,
   3336571891, 3584528711, 113926993, 338241895,
   666307205, 773529912, 1294757372, 1396182291,
   1695183700, 1986661051, 2177026350, 2456956037,
   2730485921, 2820302411, 3259730800, 3345764771,
   3516065817, 3600352804, 4094571909, 275423344,
   430227734, 506948616, 659060556, 883997877,
   958139571, 1322822218, 1537002063, 1747873779,
   1955562222, 2024104815, 2227730452, 2361852424,
   2428436474, 2756734187, 3204031479, 3329325298]

/-- The eight 32-bit working/state words of the compression function. -/
structure Words8 where
  a : Nat
  b : Nat
  c : Nat
  d : Nat
  e : Nat
  f : Nat
  g : Nat
  hh : Nat
  deriving DecidableEq

/-- SHA-256 initial hash value (FIPS 180-4, written in decimal). -/
def shaH0 : Words8 :=
  ⟨1779033703, 3144134277, 1013904242, 2773480762,
   1359893119, 2600822924, 528734635, 1541459225⟩

/-- Padding: append `0x80`, zeros to 56 mod 64, then the bit length as
eight big-endian bytes. -/
def sha256Pad (msg : List Nat) : List Nat :=
  let len := msg.length
  let bitLen := len * 8
  let padZeros := (119 - len % 64) % 64
  msg ++ [0x80] ++ List.replicate padZeros 0 ++
    [(bitLen >>> 56) % 256, (bitLen >>> 48) % 256, (bitLen >>> 40) % 256,
     (bitLen >>> 32) % 256, (bitLen >>> 24) % 256, (bitLen >>> 16) % 256,
     (bitLen >>> 8) % 256, bitLen % 256]

/-- Group bytes into big-endian 32-bit words. -/
def bytesToWords : List Nat → List Nat
  | b0 :: b1 :: b2 :: b3 :: rest =>
    (b0 * 16777216 + b1 * 65536 + b2 * 256 + b3) :: bytesToWords rest
  | _ => []

/-- Group a word list into 16-word blocks (fuel-driven so that it reduces
definitionally; `fuel = length` always suffices). -/
def wordsToBlocks : Nat → List Nat → List (List Nat)
  | _, [] => []
  | 0, ws => [ws.take 16]
  | fuel + 1, ws => ws.take 16 :: wordsToBlocks fuel (ws.drop 16)

/-- Extend the 16-word message block: each step appends
`σ1 w[n-2] + w[n-7] + σ0 w[n-15] + w[n-16] (mod 2^32)`. -/
def extendW : Nat → List Nat → List Nat
  | 0, ws => ws
  | fuel + 1, ws =>
    let n := ws.length
    let w := mod32 (smallSigma1 (ws.getD (n - 2) 0) + ws.getD (n - 7) 0 +
      smallSigma0 (ws.getD (n - 15) 0) + ws.getD (n - 16) 0)
    extendW fuel (ws ++ [w])

/-- One compression round. -/
def roundStep (s : Words8) (k w : Nat) : Words8 :=
  let t1 := mod32 (s.hh + bigSigma1 s.e + shaCh s.e s.f s.g + k + w)
  let t2 := mod32 (bigSigma0 s.a + shaMaj s.a s.b s.c)
  ⟨mod32 (t1 + t2), s.a, s.b, s.c, mod32 (s.d + t1), s.e, s.f, s.g⟩

/-- Compress one 16-word block into the running state. -/
def compressBlock (h0 : Words8) (block : List Nat) : Words8 :=
  let ws := extendW 48 block
  let s := (ws.zip shaK).foldl (fun st p => roundStep st p.2 p.1) h0
  ⟨mod32 (h0.a + s.a), mod32 (h0.b + s.b), mod32 (h0.c + s.c),
   mod32 (h0.d + s.d), mod32 (h0.e + s.e), mod32 (h0.f + s.f),
   mod32 (h0.g + s.g), mod32 (h0.hh + s.hh)⟩

def hexDigitChar (n : Nat) : Char := (str "0123456789abcdef").getD n '0'

/-- A 32-bit word as eight lowercase hex characters. -/
def wordToHex (w : Nat) : Str :=
  [hexDigitChar ((w >>> 28) % 16), hexDigitChar ((w >>> 24) % 16),
   hexDigitChar ((w >>> 20) % 16), hexDigitChar ((w >>> 16) % 16),
   hexDigitChar ((w >>> 12) % 16), hexDigitChar ((w >>> 8) % 16),
   hexDigitChar ((w >>> 4) % 16), hexDigitChar (w % 16)]

/-- `CryptoJS.SHA256(s).toString()`: the SHA-256 digest of the UTF-8
bytes of `s`, as 64 lowercase hex characters. -/
def sha256hex (s : Str) : Str :=
  let ws := bytesToWords (sha256Pad (utf8Bytes s))
  let final := (wordsToBlocks ws.length ws).foldl compressBlock shaH0
  wordToHex final.a ++ wordToHex final.b ++ wordToHex final.c ++
  wordToHex final.d ++ wordToHex final.e ++ wordToHex final.f ++
  wordToHex final.g ++ wordToHex final.hh

example :
    sha256hex (str "abc") =
      str "ba7816bf8f01cfea414140de5dae2223b00361a396177a9cb410ff61f20015ad" := by
  decide

example :
    sha256hex [] =
      str "e3b0c44298fc1c149afbf4c8996fb92427ae41e4649b934ca495991b7852b855" := by
  decide

/-!
Data model and canonicalizer (`generatePackage`, lines 193-218 of
`ForensicQRGenerator.jsx`): the canonical payload is
`JSON.stringify({op, bid, role, src, uid, ts, sec})` over trimmed scalar
fields and sections with trimmed upper-cased titles and trimmed content.
-/

/-- One evidence section, `{ title, content }`. -/
structure EvidenceSection where
  title : Str
  content : Str
  deriving DecidableEq

/-- `JSON.stringify` escaping of one character inside a string literal. -/
def jsonEscapeChar (c : Char) : Str :=
  if c = '"' then str "\\\""
  else if c = '\\' then str "\\\\"
  else if c = '\x08' then str "\\b"
  else if c = '\x09' then str "\\t"
  else if c = '\x0a' then str "\\n"
  else if c = '\x0c' then str "\\f"
  else if c = '\x0d' then str "\\r"
  else if c.toNat < 0x20 then
    str "\\u00" ++ [hexDigitChar (c.toNat / 16), hexDigitChar (c.toNat % 16)]
  else [c]

/-- A `JSON.stringify` string literal: quoted and escaped. -/
def jsonQuote (s : Str) : Str :=
  '"' :: (s.map jsonEscapeChar).flatten ++ ['"']

/-- One section as `JSON.stringify` renders it (insertion order `title`,
`content`, no whitespace). -/
def jsonSection (s : EvidenceSection) : Str :=
  str "\x7b\"title\":" ++ jsonQuote s.title ++ str ",\"content\":" ++
    jsonQuote s.content ++ str "\x7d"

/-- JavaScript `parts.join(sep)`. -/
def joinWith (sep : Str) : List Str → Str
  | [] => []
  | [l] => l
  | l :: ls => l ++ sep ++ joinWith sep ls

/-- The canonicalization applied to the section list before hashing and
formatting: `{title: s.title.trim().toUpperCase(), content: s.content.trim()}`. -/
def canonicalSections (sections : List EvidenceSection) : List EvidenceSection :=
  sections.map fun s => ⟨jsUpper (jsTrim s.title), jsTrim s.content⟩

/-- The canonical payload string
`JSON.stringify({op, bid, role, src, uid, ts, sec})` built from the raw
generation inputs exactly as `generatePackage` builds it (scalars
trimmed, section titles trimmed and upper-cased, section content
trimmed; key insertion order `op,bid,role,src,uid,ts,sec`). -/
def canonicalize (name badge role src uid ts : Str)
    (sections : List EvidenceSection) : Str :=
  str "\x7b\"op\":" ++ jsonQuote (jsTrim name) ++
  str ",\"bid\":" ++ jsonQuote (jsTrim badge) ++
  str ",\"role\":" ++ jsonQuote (jsTrim role) ++
  str ",\"src\":" ++ jsonQuote (jsTrim src) ++
  str ",\"uid\":" ++ jsonQuote uid ++
  str ",\"ts\":" ++ jsonQuote ts ++
  str ",\"sec\":[" ++ joinWith (str ",") ((canonicalSections sections).map jsonSection) ++
  str "]\x7d"

example :
    canonicalize (str " A ") (str "B") (str "C") (str "D") (str "u") (str "t")
      [⟨str "evidence 1", str " x "⟩] =
    str "\x7b\"op\":\"A\",\"bid\":\"B\",\"role\":\"C\",\"src\":\"D\",\"uid\":\"u\",\"ts\":\"t\",\"sec\":[\x7b\"title\":\"EVIDENCE 1\",\"content\":\"x\"\x7d]\x7d" := by
  decide

/-!
Package formatter (`generatePackage`, lines 220-246): the sealed-report
text.  The display timestamp (`new Date(timestamp).toLocaleString()`) and
the year (`new Date().getFullYear()`) are ambient locale/clock values and
are passed as parameters.
-/

/-- The manifest block: `canonicalSections.map((s, i) =>
`\n#${i+1} :: ${s.title}\n${s.content}`).join("\n\n")`. -/
def manifestBlock (secs : List EvidenceSection) : Str :=
  joinWith (str "\n\n")
    (secs.enum.map fun p =>
      '\n' :: '#' :: str (Nat.repr (p.1 + 1)) ++ str " :: " ++ p.2.title ++
        '\n' :: p.2.content)

/-- The formatted sealed report (already-canonicalized sections and the
digest are supplied, as in the source); the template literal is finally
`.trim()`-ed. -/
def formatReport (uid dispTs ts name badge role src : Str)
    (secs : List EvidenceSection) (hash year : Str) : Str :=
  jsTrim (
    str "\n\n         ██ P.H.A.N.I.X ██\n     FORENSIC-QR-ARCHITECT\n================================\nCASE ID   : " ++ uid ++
    str "\nTIMESTAMP : " ++ dispTs ++
    str "\nREF-TS    : " ++ ts ++
    str "\nSTATUS    : SEALED / VERIFIED\n--------------------------------\nOPERATOR NAME : " ++ name ++
    str "\nBADGE ID      : " ++ badge ++
    str "\nROLE          : " ++ role ++
    str "\nEVIDENCE FROM : " ++ src ++
    str "\n================================\n[ EVIDENCE MANIFEST ]\n" ++ manifestBlock secs ++
    str "\n================================\n[ CRYPTOGRAPHIC SIGNATURE ]\nSHA-256 HASH:\n" ++ hash ++
    str "\n--------------------------------\nDIGITALLY SIGNED BY PHANIX\n(C) " ++ year ++
    str " FORENSIC-QR-ARCHITECT\nEND OF RECORD")

/-- What a successful generation produces: the QR payload text and the
manifest `{id, timestamp, hash}`. -/
structure Generated where
  qrData : Str
  manifestId : Str
  manifestTs : Str
  manifestHash : Str
  deriving DecidableEq

/-- The inline validation message of `generatePackage`. -/
def validationMsg : Str :=
  str "Please fill in all required fields (Name, Badge ID, Role, Evidence Source)."

/-- `generatePackage` (lines 167-256): validation gate, evidence-source
suffix, canonicalization, digest, formatting, manifest.  The fresh UUID,
ISO timestamp, display timestamp and year are ambient values passed as
parameters.  On validation failure the function returns before any
package data is constructed. -/
def generatePackage (name badge role evidenceSource locationDetails : Str)
    (sections : List EvidenceSection) (uid ts dispTs year : Str) :
    Except Str Generated :=
  if (jsTrim name).isEmpty || (jsTrim badge).isEmpty || (jsTrim role).isEmpty ||
      (jsTrim evidenceSource).isEmpty then
    .error validationMsg
  else
    let finalEvidenceSource :=
      if locationDetails.isEmpty then evidenceSource
      else evidenceSource ++ str " [ " ++ locationDetails ++ str " ]"
    let payloadString :=
      canonicalize name badge role finalEvidenceSource uid ts sections
    let hash := sha256hex payloadString
    let report := formatReport uid dispTs ts (jsTrim name) (jsTrim badge)
      (jsTrim role) (jsTrim finalEvidenceSource) (canonicalSections sections)
      hash year
    .ok ⟨report, uid, ts, hash⟩

/-!
Package parser and verification engine (`processScan` lines 699-770 and
`performForensicAnalysis` lines 623-697).  JavaScript runtime exceptions
are embedded as `Except` errors: `line.split(':')[1].trim()` throws a
`TypeError` when the line has no colon (`[1]` is `undefined`), and the
classification branch `urlPattern.test(rawData) || ipUrl.test(rawData)`
throws a `ReferenceError` because neither `urlPattern` nor `ipUrl` is
defined anywhere in the repository.
-/

/-- JavaScript runtime faults that the scan path can raise. -/
inductive JsError where
  /-- An undefined identifier was evaluated (`urlPattern`, `ipUrl`). -/
  | referenceError
  /-- A method was invoked on `undefined` (`split(':')[1].trim()`). -/
  | typeError
  deriving DecidableEq

/-- The structured fields reconstructed from a recognized package. -/
structure PhanixFields where
  uid : Str
  ts : Str
  op : Str
  bid : Str
  role : Str
  src : Str
  sec : List EvidenceSection
  deriving DecidableEq

/-- `phanixData`: the embedded hash plus the reconstructed fields. -/
structure PhanixData where
  hash : Str
  data : PhanixFields
  deriving DecidableEq

/-- `scanResult`: either a recognized package or raw passthrough text. -/
inductive ScanResult where
  | valid (data : PhanixFields) (hash : Str)
  | raw (data : Str)
  deriving DecidableEq

/-- The analysis report assembled by `performForensicAnalysis` (the
ambient clock timestamp and the camera/upload source tag are UI state and
not part of the core data). -/
structure AnalysisReport where
  hash : Str
  classification : Str
  riskLevel : Str
  trustStatus : Str
  trustDescription : Str
  indicators : List Str
  checklist : List (Str × Str)
  deriving DecidableEq

/-- `getValue(key)` inside `processScan`: find the first line containing
`key` and return `line.split(':')[1].trim()`; no such line yields `''`;
a found line without a colon makes `[1]` `undefined` and the `.trim()`
call throw. -/
def getValue (lines : List Str) (key : Str) : Except JsError Str :=
  match lines.find? (fun l => includes l key) with
  | none => .ok []
  | some line =>
    match (jsSplit ':' line).get? 1 with
    | none => .error .typeError
    | some seg => .ok (jsTrim seg)

/-- Hash extraction: the trimmed line immediately after the first line
containing `SHA-256 HASH:`; absent or empty lines leave the hash `''`. -/
def extractHash (lines : List Str) : Str :=
  match lines.findIdx? (fun l => includes l (str "SHA-256 HASH:")) with
  | none => []
  | some i =>
    match lines.get? (i + 1) with
    | none => []
    | some l => if l.isEmpty then [] else jsTrim l

/-- The manifest walk state machine (`sectionLines.forEach`): a line that
trim-starts with `#` and contains `::` opens a section (flushing the
previous one); other lines accumulate as content, except that blank lines
before a section's first content line are dropped.  The `[1]` index after
`split("::")` is guarded by the `includes "::"` test, so it never faults. -/
def walkGo : List Str → Str → List Str → List EvidenceSection → List EvidenceSection
  | [], currentTitle, currentContent, acc =>
    if currentTitle.isEmpty then acc
    else acc ++ [⟨currentTitle, jsTrim (joinLines currentContent)⟩]
  | line :: rest, currentTitle, currentContent, acc =>
    if jsStartsWith (str "#") (jsTrim line) && includes line (str "::") then
      let acc' :=
        if currentTitle.isEmpty then acc
        else acc ++ [⟨currentTitle, jsTrim (joinLines currentContent)⟩]
      walkGo rest (jsTrim (((jsSplitSep (str "::") line).get? 1).getD [])) [] acc'
    else
      if currentContent.length > 0 || !(jsTrim line).isEmpty then
        walkGo rest currentTitle (currentContent ++ [line]) acc
      else
        walkGo rest currentTitle currentContent acc

/-- `lines.slice(manifestStart + 1, sigStart)` walked by the section
state machine. -/
def walkSections (sectionLines : List Str) : List EvidenceSection :=
  walkGo sectionLines [] [] []

def familyMarker : Str := str "FORENSIC-QR-ARCHITECT"

def sigMarker : Str := str "[ CRYPTOGRAPHIC SIGNATURE ]"

def hashLabel : Str := str "SHA-256 HASH:"

def manifestMarker : Str := str "[ EVIDENCE MANIFEST ]"

/-- The recognition test plus field extraction of `processScan` (lines
703-768): the result pairs the `phanixData` handed to the analysis engine
with the `scanResult` that is set.  Any `getValue` fault propagates. -/
def parsePhanix (content : Str) :
    Except JsError (Option PhanixData × ScanResult) :=
  let isPhanix := includes content familyMarker &&
    includes content sigMarker && includes content hashLabel
  if isPhanix then
    let lines := jsSplit '\n' content
    match getValue lines (str "CASE ID") with
    | .error e => .error e
    | .ok extractedId =>
    match ((match getValue lines (str "REF-TS") with
            | .error e => .error e
            | .ok r =>
              if r.isEmpty then getValue lines (str "TIMESTAMP")
              else .ok r) : Except JsError Str) with
    | .error e => .error e
    | .ok extractedTimestamp =>
    match getValue lines (str "OPERATOR NAME") with
    | .error e => .error e
    | .ok extractedOp =>
    match getValue lines (str "BADGE ID") with
    | .error e => .error e
    | .ok extractedBid =>
    match getValue lines (str "ROLE") with
    | .error e => .error e
    | .ok extractedRole =>
    match getValue lines (str "EVIDENCE FROM") with
    | .error e => .error e
    | .ok extractedSrc =>
      let extractedHash := extractHash lines
      let manifestStart := lines.findIdx? (fun l => includes l manifestMarker)
      let sigStart := lines.findIdx? (fun l => includes l sigMarker)
      let extractedSec :=
        match manifestStart, sigStart with
        | some m, some s => walkSections ((lines.take s).drop (m + 1))
        | _, _ => []
      if !extractedId.isEmpty && !extractedHash.isEmpty then
        let fields : PhanixFields :=
          ⟨extractedId, extractedTimestamp, extractedOp, extractedBid,
           extractedRole, extractedSrc, extractedSec⟩
        .ok (some ⟨extractedHash, fields⟩, .valid fields extractedHash)
      else
        .ok (none, .raw content)
  else
    .ok (none, .raw content)

/-- `performForensicAnalysis` (lines 623-697).  With `phanixData`
present, the "Simplified Verification Logic" unconditionally reports a
trusted seal, reusing the hash extracted from the scanned text; without
it, control reaches `urlPattern.test(rawData)`, and since `urlPattern`
(like `ipUrl`) is defined nowhere in the repository, evaluating it throws
a `ReferenceError` before any report is assembled. -/
def performForensicAnalysis (rawData : Str) (phanixData : Option PhanixData) :
    Except JsError AnalysisReport :=
  let initialHash := sha256hex rawData
  match phanixData with
  | some pd =>
    .ok
      { hash := pd.hash
        classification := str "PHANIX Secure Package"
        riskLevel := str "LOW"
        trustStatus := str "TRUSTED SEAL"
        trustDescription :=
          str "Digitally signed and sealed by PHANIX Architect. Integrity confirmed."
        indicators :=
          [str "Internal forensic signature detected",
           str "Data structure verified",
           str "Chain of custody intact"]
        checklist :=
          [(str "Structural Analysis", str "PASS"),
           (str "Internal Hash Check", str "PASS"),
           (str "Authenticity Seal", str "PASS")] }
  | none =>
    -- The initial state (`hash = initialHash`, classification
    -- "Generic Data / Plaintext", trust status "UNVERIFIED DATA", ...) is
    -- dead: the first `else if` faults on the undefined `urlPattern`.
    let _ := initialHash
    .error .referenceError

/-- The observable outcome of one `processScan` call: the early return on
blank input, an escaped exception (recording whether `setScanResult` had
already run), or a completed scan with its report. -/
inductive ScanOutcome where
  | noop
  | thrown (scanResultSet : Option ScanResult) (e : JsError)
  | done (scanResult : ScanResult) (report : AnalysisReport)
  deriving DecidableEq

/-- `processScan` (lines 699-770): blank input is a no-op; otherwise the
parse runs, `setScanResult` is applied, and `performForensicAnalysis` is
invoked on the raw content with the parse's `phanixData`. -/
def processScan (content : Str) : ScanOutcome :=
  if (jsTrim content).isEmpty then .noop
  else
    match parsePhanix content with
    | .error e => .thrown none e
    | .ok (pd, sr) =>
      match performForensicAnalysis content pd with
      | .ok r => .done sr r
      | .error e => .thrown (some sr) e

/-!
Decode pipeline (`tryDecode` inside `handleFileUpload`, lines 568-596):
three strategies in order — ZXing on the padded canvas, jsQR on the same
canvas, jsQR on a scaled contrast-enhanced copy — each tried only after
the previous one's explicit failure (engine throw or no match), stopping
at the first success and otherwise throwing "Decoding Failure".  The
engines are external capabilities, so their per-strategy outcomes are
parameters. -/
def tryDecode (engine1 : Except Unit Str) (engine2 engine3 : Option Str) :
    Except Unit Str :=
  match engine1 with
  | .ok t => .ok t
  | .error _ =>
    match engine2 with
    | some t => .ok t
    | none =>
      match engine3 with
      | some t => .ok t
      | none => .error ()

/-- How many decode attempts `tryDecode` performs for the given engine
outcomes. -/
def decodeAttempts (engine1 : Except Unit Str) (engine2 : Option Str)
    (_engine3 : Option Str) : Nat :=
  match engine1 with
  | .ok _ => 1
  | .error _ =>
    match engine2 with
    | some _ => 2
    | none => 3

/-!
Observable projections of a scan outcome, used to state concrete
evaluations compactly.
-/

/-- The trust status of a completed scan's report. -/
def trustStatusOf : ScanOutcome → Option Str
  | .done _ r => some r.trustStatus
  | _ => none

/-- The report hash of a completed scan. -/
def reportHashOf : ScanOutcome → Option Str
  | .done _ r => some r.hash
  | _ => none

/-- The reconstructed section list of a completed scan recognized as a
package. -/
def sectionsOf : ScanOutcome → Option (List EvidenceSection)
  | .done (.valid d _) _ => some d.sec
  | _ => none

/-- The reconstructed raw-timestamp field of a completed recognized scan. -/
def tsOf : ScanOutcome → Option Str
  | .done (.valid d _) _ => some d.ts
  | _ => none

/-- Whether the scan completed with a recognized (`valid`) package. -/
def isValidOutcome : ScanOutcome → Bool
  | .done (.valid _ _) _ => true
  | _ => false

/-!
Concrete sealed reports used by the claim theorems (the spec's scenario-1
package: operator "J. Doe", badge "PHX-1", role "Investigator", source
"Crime Scene A", one section `{title: "Evidence 1", content:
" bloodstain sample "}`, with a fixed UUID/timestamp pair).
-/

/-- Scenario-1 sections as entered by the operator. -/
def demoSections : List EvidenceSection :=
  [⟨str "Evidence 1", str " bloodstain sample "⟩]

/-- The scenario-1 canonical payload. -/
def demoPayload : Str :=
  canonicalize (str "J. Doe") (str "PHX-1") (str "Investigator")
    (str "Crime Scene A") (str "CASE-1") (str "2026-01-02T03:04:05.678Z")
    demoSections

/-- The SHA-256 digest of the scenario-1 canonical payload. -/
def demoDigest : Str :=
  str "966a8596fd9af1ba1b5e8cd1fbbf016331eba932132f57cd20afb316b28342a7"

/-- The scenario-1 sealed report exactly as `generatePackage` formats it. -/
def demoReport : Str :=
  formatReport (str "CASE-1") (str "1/2/2026, 3:04:05 AM")
    (str "2026-01-02T03:04:05.678Z") (str "J. Doe") (str "PHX-1")
    (str "Investigator") (str "Crime Scene A")
    (canonicalSections demoSections) demoDigest (str "2026")

/-- The scenario-1 report with a single character flipped inside the
manifest content line (`bloodstain` changed to `bloodstaXn`), leaving the
embedded digest line unchanged. -/
def demoTampered : Str :=
  formatReport (str "CASE-1") (str "1/2/2026, 3:04:05 AM")
    (str "2026-01-02T03:04:05.678Z") (str "J. Doe") (str "PHX-1")
    (str "Investigator") (str "Crime Scene A")
    [⟨str "EVIDENCE 1", str "bloodstaXn sample"⟩] demoDigest (str "2026")

/-- The scenario-1 inputs with the section content flipped the same way,
for recomputing the digest the way the canonicalizer would. -/
def demoTamperedPayload : Str :=
  canonicalize (str "J. Doe") (str "PHX-1") (str "Investigator")
    (str "Crime Scene A") (str "CASE-1") (str "2026-01-02T03:04:05.678Z")
    [⟨str "Evidence 1", str " bloodstaXn sample "⟩]

/-- The scenario-1 canonical payload hashes to the embedded digest (the
constant was cross-checked against an independent SHA-256
implementation). -/
theorem demoDigest_genuine : sha256hex demoPayload = demoDigest := by decide

example : generatePackage (str "J. Doe") (str "PHX-1") (str "Investigator")
    (str "Crime Scene A") [] demoSections (str "CASE-1")
    (str "2026-01-02T03:04:05.678Z") (str "1/2/2026, 3:04:05 AM")
    (str "2026") = .ok ⟨demoReport, str "CASE-1",
      str "2026-01-02T03:04:05.678Z", demoDigest⟩ := by decide

/-- A scan text containing the family marker, the signature marker and
the hash label — but not the manifest opening marker. -/
def noManifestText : Str :=
  str "FORENSIC-QR-ARCHITECT\nCASE ID : C-9\n[ CRYPTOGRAPHIC SIGNATURE ]\nSHA-256 HASH:\nabc123"

/-- A scan text whose `CASE ID` line has no colon. -/
def colonlessLabelText : Str :=
  str "FORENSIC-QR-ARCHITECT\nCASE ID\n[ CRYPTOGRAPHIC SIGNATURE ]\nSHA-256 HASH:\nabc"

/-!
Splitting lemmas shared by the parser theorems.
-/

/-- Splitting at the first separator occurrence: the part before it is
the first segment. -/
theorem jsSplit_sep_left (sep : Char) (xs ys : Str) (h : sep ∉ xs) :
    jsSplit sep (xs ++ sep :: ys) = xs :: jsSplit sep ys := by
  induction xs with
  | nil => simp [jsSplit]
  | cons x xs ih =>
    have hx : ¬x = sep := fun e => h (by simp [e])
    have hxs : sep ∉ xs := fun m => h (List.mem_cons_of_mem _ m)
    simp only [List.cons_append, jsSplit, if_neg hx, List.append_eq, ih hxs]

/-- `jsSplit` always produces at least one segment. -/
theorem jsSplit_cons (sep : Char) (l : Str) :
    ∃ x rest, jsSplit sep l = x :: rest := by
  cases l with
  | nil => exact ⟨[], [], rfl⟩
  | cons c cs =>
    simp only [jsSplit]
    by_cases hc : c = sep
    · exact ⟨[], jsSplit sep cs, by simp [hc]⟩
    · obtain ⟨x, rest, hx⟩ := jsSplit_cons sep cs
      exact ⟨c :: x, rest, by simp [hc, hx]⟩

/-- A line containing the separator splits into at least two segments. -/
theorem jsSplit_get1_of_mem (sep : Char) (l : Str) (h : sep ∈ l) :
    ∃ s, (jsSplit sep l).get? 1 = some s := by
  induction l with
  | nil => cases h
  | cons c cs ih =>
    by_cases hc : c = sep
    · subst hc
      obtain ⟨x, rest, hx⟩ := jsSplit_cons c cs
      exact ⟨x, by simp [jsSplit, hx]⟩
    · have hmem : sep ∈ cs := by
        rcases List.mem_cons.mp h with h1 | h1
        · exact absurd h1.symm hc
        · exact h1
      obtain ⟨s, hs⟩ := ih hmem
      obtain ⟨x, rest, hx⟩ := jsSplit_cons sep cs
      rw [hx] at hs
      cases rest with
      | nil => simp at hs
      | cons y r =>
        simp only [List.get?] at hs
        exact ⟨s, by simp [jsSplit, if_neg hc, hx, hs]⟩

/-- When every line that would be found for `key` contains a colon,
`getValue` cannot throw. -/
theorem getValue_ok_of_colon (lines : List Str) (key : Str)
    (h : ∀ l, lines.find? (fun l' => includes l' key) = some l → ':' ∈ l) :
    ∃ v, getValue lines key = .ok v := by
  unfold getValue
  cases hf : lines.find? (fun l => includes l key) with
  | none => exact ⟨[], rfl⟩
  | some line =>
    obtain ⟨s, hs⟩ := jsSplit_get1_of_mem ':' line (h line hf)
    exact ⟨jsTrim s, by rw [List.get?_eq_getElem?] at hs; simp [hs]⟩

/-!
Claim theorems.
-/

/-- Claim C1 (code bug): on a sealed report with one manifest character
flipped and the embedded digest line unchanged, the verification engine
still reports `TRUSTED SEAL` — it reuses the embedded digest as the
report hash and never recomputes `digest(canonicalize(...))`, even though
the recomputed digest of the tampered package differs from the embedded
one.  (The tampered text differs from the genuine scenario-1 report in
exactly one character.) -/
theorem c1_tamper_reported_trusted :
    trustStatusOf (processScan demoTampered) = some (str "TRUSTED SEAL")
  ∧ reportHashOf (processScan demoTampered) = some demoDigest
  ∧ sha256hex demoTamperedPayload ≠ demoDigest
  ∧ demoTampered.length = demoReport.length
  ∧ ((demoReport.zip demoTampered).countP fun p => p.1 != p.2) = 1 := by
  refine ⟨by decide, by decide, by decide, by decide, by decide⟩

/-- Claim C2 (code bug): scanning the plain text `"hello"` (no family
marker) sets the raw scan result but then throws a `ReferenceError` from
the undefined `urlPattern`, so no analysis report is ever produced. -/
theorem c2_unrecognized_scan_throws :
    includes (str "hello") familyMarker = false
  ∧ processScan (str "hello") =
      .thrown (some (.raw (str "hello"))) .referenceError := by
  refine ⟨by decide, by decide⟩

/-- Claim C3 (counterexample): a text missing the manifest opening marker
— one of the claim's four required structural elements — is nonetheless
recognized and parsed into a valid package, not classified Unrecognized. -/
theorem c3_three_markers_suffice :
    includes noManifestText manifestMarker = false
  ∧ isValidOutcome (processScan noManifestText) = true := by
  refine ⟨by decide, by decide⟩

/-- Claim C4 (code bug): parsing the formatted scenario-1 report does not
reconstruct the normalized section list — the parser absorbs the layout
separator line preceding the signature marker into the final section's
content. -/
theorem c4_roundtrip_separator_absorbed :
    sectionsOf (processScan demoReport) =
      some [⟨str "EVIDENCE 1",
        str "bloodstain sample\n================================"⟩]
  ∧ sectionsOf (processScan demoReport) ≠
      some (canonicalSections demoSections) := by
  refine ⟨by decide, by decide⟩

/-- Claim C5 (counterexample): on the formatted scenario-1 report the
extracted raw timestamp is the text between the first and second colon of
the `REF-TS` line, not the entire remainder — the ISO timestamp is
truncated at its first internal colon. -/
theorem c5_colon_value_truncated :
    tsOf (processScan demoReport) = some (str "2026-01-02T03")
  ∧ tsOf (processScan demoReport) ≠ some (str "2026-01-02T03:04:05.678Z") := by
  refine ⟨by decide, by decide⟩

/-- Claim C7 (counterexample): a text that matches the family marker but
whose `CASE ID` line contains no colon makes the parse throw a
`TypeError` (from `split(':')[1].trim()`) instead of degrading to the
raw/Unrecognized result. -/
theorem c7_colonless_label_throws :
    includes colonlessLabelText familyMarker = true
  ∧ processScan colonlessLabelText = .thrown none .typeError := by
  refine ⟨by decide, by decide⟩

/-- Claim C10 (code bug): for a recognized package the report hash is the
digest extracted from inside the scanned text (which is not the SHA-256
of the scanned text itself), but for unrecognized text no report is
produced at all — the engine throws a `ReferenceError` before assigning
the SHA-256 of the raw text. -/
theorem c10_report_hash_branches :
    reportHashOf (processScan demoReport) = some demoDigest
  ∧ sha256hex demoReport ≠ demoDigest
  ∧ processScan (str "plain note") =
      .thrown (some (.raw (str "plain note"))) .referenceError := by
  refine ⟨by decide, by decide, by decide⟩

/-- Claim C3 (amended): the recognition test requires the three
structural elements it actually checks — the family marker, the
signature-section marker and the hash-label line; any text missing at
least one of these three is classified as raw passthrough with no field
extraction (the manifest opening marker is not part of the test). -/
theorem c3_recognition_three_markers (content : Str)
    (h : includes content familyMarker = false ∨
         includes content sigMarker = false ∨
         includes content hashLabel = false) :
    parsePhanix content = .ok (none, .raw content) := by
  unfold parsePhanix
  rcases h with h | h | h <;> simp [h]

theorem c3_recognition_three_markers_witness :
    parsePhanix (str "arbitrary text") = .ok (none, .raw (str "arbitrary text")) :=
  c3_recognition_three_markers (str "arbitrary text") (.inl (by decide))

/-- Claim C5 (amended): the parser extracts a scalar field from the first
line containing its label by taking the segment strictly between the
line's first and second colons (trimmed) — not the entire remainder, so a
value containing a colon is truncated at it — and a missing label yields
the explicit empty value instead of failing the parse. -/
theorem c5_between_first_two_colons :
    (∀ lines key a b c,
        lines.find? (fun l => includes l key) = some (a ++ ':' :: (b ++ ':' :: c)) →
        ':' ∉ a → ':' ∉ b →
        getValue lines key = .ok (jsTrim b))
  ∧ (∀ lines key, lines.find? (fun l => includes l key) = none →
        getValue lines key = .ok []) := by
  constructor
  · intro lines key a b c hfind ha hb
    unfold getValue
    rw [hfind]
    have h1 := jsSplit_sep_left ':' a (b ++ ':' :: c) ha
    have h2 := jsSplit_sep_left ':' b c hb
    simp [h1, h2]
  · intro lines key hfind
    unfold getValue
    rw [hfind]

theorem c5_between_first_two_colons_witness :
    getValue [str "REF-TS    : 2026-01-02T03:04:05.678Z"] (str "REF-TS") =
      .ok (str "2026-01-02T03") :=
  c5_between_first_two_colons.1
    [str "REF-TS    : 2026-01-02T03:04:05.678Z"] (str "REF-TS")
    (str "REF-TS    ") (str " 2026-01-02T03") (str "04:05.678Z")
    (by decide) (by decide) (by decide)

/-- Claim C6: canonicalization is deterministic, and two generation
inputs that agree on the identifier and timestamp and differ only by
leading/trailing whitespace on scalar fields, section-title whitespace or
letter case, and section-content leading/trailing whitespace produce the
same canonical payload and hence the same digest. -/
theorem c6_canonicalization_stable
    (name badge role src uid ts : Str) (sections : List EvidenceSection)
    (name' badge' role' src' : Str) (sections' : List EvidenceSection)
    (hn : jsTrim name = jsTrim name') (hb : jsTrim badge = jsTrim badge')
    (hr : jsTrim role = jsTrim role') (hs : jsTrim src = jsTrim src')
    (hsec : List.Forall₂
      (fun s s' => jsUpper (jsTrim s.title) = jsUpper (jsTrim s'.title) ∧
        jsTrim s.content = jsTrim s'.content) sections sections') :
    canonicalize name badge role src uid ts sections =
      canonicalize name badge role src uid ts sections
  ∧ canonicalize name badge role src uid ts sections =
      canonicalize name' badge' role' src' uid ts sections'
  ∧ sha256hex (canonicalize name badge role src uid ts sections) =
      sha256hex (canonicalize name' badge' role' src' uid ts sections') := by
  have hcs : canonicalSections sections = canonicalSections sections' := by
    induction hsec with
    | nil => rfl
    | cons hpair _ ih =>
      simp only [canonicalSections, List.map_cons] at ih ⊢
      rw [hpair.1, hpair.2, ih]
  have hmain : canonicalize name badge role src uid ts sections =
      canonicalize name' badge' role' src' uid ts sections' := by
    unfold canonicalize
    rw [hn, hb, hr, hs, hcs]
  exact ⟨rfl, hmain, by rw [hmain]⟩

theorem c6_canonicalization_stable_witness :
    canonicalize (str "J. Doe") (str " PHX-1 ") (str "Investigator")
        (str "Crime Scene A") (str "u-1") (str "t-1")
        [⟨str " evidence 1 ", str " bloodstain sample "⟩] =
      canonicalize (str "J. Doe") (str "PHX-1") (str "Investigator")
        (str "Crime Scene A") (str "u-1") (str "t-1")
        [⟨str "EVIDENCE 1", str "bloodstain sample"⟩]
  ∧ sha256hex (canonicalize (str "J. Doe") (str " PHX-1 ") (str "Investigator")
        (str "Crime Scene A") (str "u-1") (str "t-1")
        [⟨str " evidence 1 ", str " bloodstain sample "⟩]) =
      sha256hex (canonicalize (str "J. Doe") (str "PHX-1") (str "Investigator")
        (str "Crime Scene A") (str "u-1") (str "t-1")
        [⟨str "EVIDENCE 1", str "bloodstain sample"⟩]) :=
  (c6_canonicalization_stable (str "J. Doe") (str " PHX-1 ") (str "Investigator")
    (str "Crime Scene A") (str "u-1") (str "t-1")
    [⟨str " evidence 1 ", str " bloodstain sample "⟩]
    (str "J. Doe") (str "PHX-1") (str "Investigator") (str "Crime Scene A")
    [⟨str "EVIDENCE 1", str "bloodstain sample"⟩]
    (by decide) (by decide) (by decide) (by decide)
    (.cons ⟨by decide, by decide⟩ .nil)).2

/-- Claim C8: when any of the four required fields is blank after
trimming, `generatePackage` stops at the validation gate with the inline
error message, producing no package data at all. -/
theorem c8_validation_gate (name badge role evidenceSource locationDetails : Str)
    (sections : List EvidenceSection) (uid ts dispTs year : Str)
    (h : jsTrim name = [] ∨ jsTrim badge = [] ∨ jsTrim role = [] ∨
         jsTrim evidenceSource = []) :
    generatePackage name badge role evidenceSource locationDetails sections
      uid ts dispTs year = .error validationMsg := by
  unfold generatePackage
  rcases h with h | h | h | h <;> simp [h]

theorem c8_validation_gate_witness :
    generatePackage (str "J. Doe") (str "   ") (str "Investigator")
      (str "Crime Scene A") [] demoSections (str "u-1") (str "t-1")
      (str "d-1") (str "2026") = .error validationMsg :=
  c8_validation_gate (str "J. Doe") (str "   ") (str "Investigator")
    (str "Crime Scene A") [] demoSections (str "u-1") (str "t-1")
    (str "d-1") (str "2026") (.inr (.inl (by decide)))

/-- Claim C9: the still-image decode pipeline performs at most three
attempts, stops immediately when a strategy succeeds, advances to a later
strategy only after the earlier ones explicitly failed, and reaches the
terminal decode failure exactly when all three strategies fail. -/
theorem c9_decode_pipeline (engine1 : Except Unit Str)
    (engine2 engine3 : Option Str) :
    decodeAttempts engine1 engine2 engine3 ≤ 3
  ∧ (∀ t, engine1 = .ok t →
      tryDecode engine1 engine2 engine3 = .ok t ∧
      decodeAttempts engine1 engine2 engine3 = 1)
  ∧ (2 ≤ decodeAttempts engine1 engine2 engine3 → engine1 = .error ())
  ∧ (decodeAttempts engine1 engine2 engine3 = 3 →
      engine1 = .error () ∧ engine2 = none)
  ∧ (engine1 = .error () → engine2 = none → engine3 = none →
      tryDecode engine1 engine2 engine3 = .error () ∧
      decodeAttempts engine1 engine2 engine3 = 3) := by
  rcases engine1 with e | t1 <;> rcases engine2 with _ | t2 <;>
    rcases engine3 with _ | t3 <;>
    simp [tryDecode, decodeAttempts]

theorem c9_decode_pipeline_witness :
    tryDecode (.ok (str "decoded")) none none = .ok (str "decoded") ∧
    decodeAttempts (.ok (str "decoded")) none none = 1 :=
  (c9_decode_pipeline (.ok (str "decoded")) none none).2.1 (str "decoded") rfl

/-- The scalar labels probed by `getValue` during extraction (including
the display-timestamp fallback key). -/
def scalarKeys : List Str :=
  [str "CASE ID", str "REF-TS", str "TIMESTAMP", str "OPERATOR NAME",
   str "BADGE ID", str "ROLE", str "EVIDENCE FROM"]

/-- Claim C7 (amended): when the family marker matches but no package id
or no digest can be extracted, the parse degrades to the raw/Unrecognized
result and does not present partial data as a valid package — provided
that every line found for a scalar label contains a colon; a label line
without any colon instead makes the parse throw. -/
theorem c7_parse_ambiguity_degrades (content : Str)
    (hfam : includes content familyMarker = true)
    (hsig : includes content sigMarker = true)
    (hhl : includes content hashLabel = true)
    (hsafe : ∀ key ∈ scalarKeys, ∀ l,
      (jsSplit '\n' content).find? (fun l' => includes l' key) = some l →
      ':' ∈ l)
    (hdeg : getValue (jsSplit '\n' content) (str "CASE ID") = .ok [] ∨
            extractHash (jsSplit '\n' content) = []) :
    parsePhanix content = .ok (none, .raw content) := by
  have hkey : ∀ key ∈ scalarKeys,
      ∃ v, getValue (jsSplit '\n' content) key = .ok v := fun key hk =>
    getValue_ok_of_colon _ key (hsafe key hk)
  obtain ⟨vId, hId⟩ := hkey (str "CASE ID") (by simp [scalarKeys])
  obtain ⟨vR, hR⟩ := hkey (str "REF-TS") (by simp [scalarKeys])
  obtain ⟨vT, hT⟩ := hkey (str "TIMESTAMP") (by simp [scalarKeys])
  obtain ⟨vOp, hOp⟩ := hkey (str "OPERATOR NAME") (by simp [scalarKeys])
  obtain ⟨vBid, hBid⟩ := hkey (str "BADGE ID") (by simp [scalarKeys])
  obtain ⟨vRole, hRole⟩ := hkey (str "ROLE") (by simp [scalarKeys])
  obtain ⟨vSrc, hSrc⟩ := hkey (str "EVIDENCE FROM") (by simp [scalarKeys])
  have hcond : (!vId.isEmpty && !(extractHash (jsSplit '\n' content)).isEmpty)
      = false := by
    rcases hdeg with hdeg | hdeg
    · rw [hId] at hdeg
      cases hdeg
      simp
    · rw [hdeg]
      simp
  unfold parsePhanix
  simp only [hfam, hsig, hhl, Bool.and_self, Bool.true_and, if_true,
    hId, hR, hT, hOp, hBid, hRole, hSrc]
  by_cases hvR : vR.isEmpty <;>
    simp [hvR, hT, hcond]

theorem c7_parse_ambiguity_degrades_witness :
    parsePhanix
      (str "FORENSIC-QR-ARCHITECT\n[ CRYPTOGRAPHIC SIGNATURE ]\nSHA-256 HASH:") =
    .ok (none, .raw
      (str "FORENSIC-QR-ARCHITECT\n[ CRYPTOGRAPHIC SIGNATURE ]\nSHA-256 HASH:")) :=
  c7_parse_ambiguity_degrades
    (str "FORENSIC-QR-ARCHITECT\n[ CRYPTOGRAPHIC SIGNATURE ]\nSHA-256 HASH:")
    (by decide) (by decide) (by decide)
    (by
      intro key hk l hfind
      exfalso
      simp only [scalarKeys, List.mem_cons, List.not_mem_nil, or_false] at hk
      rcases hk with rfl | rfl | rfl | rfl | rfl | rfl | rfl <;>
        rw [show (jsSplit '\n'
          (str "FORENSIC-QR-ARCHITECT\n[ CRYPTOGRAPHIC SIGNATURE ]\nSHA-256 HASH:")).find?
            (fun l' => includes l' _) = none from by decide] at hfind <;>
        cases hfind)
    (.inl (by decide))

end Phanix
